import Mathlib

/-
  Verification of the earthquake-map visualization script
  (src/Starter_Code/static/js/logic.js).

  The script's transformation pipeline is shallowly embedded:
  JavaScript numbers are modelled as rationals (ℚ), JS objects as
  structures, the optional `geometry` / `properties` fields as Option,
  and the feature-processing loop of `createMap` as a recursive function
  returning `Except` (a thrown TypeError becomes `Except.error`).
-/

namespace EarthquakeMap

/-- Embeds `const getMarkerSize = (magnitude) => magnitude > 0 ? magnitude ** 7 : 1;`
(logic.js line 3). -/
def getMarkerSize (magnitude : ℚ) : ℚ :=
  if magnitude > 0 then magnitude ^ 7 else 1

/-- Embeds `getColorByDepth` (logic.js lines 6-13): a cascade of
`if (depth <= k) return color;` tests with a final red fallback. -/
def getColorByDepth (depth : ℚ) : String :=
  if depth ≤ 10 then "#98EE00"
  else if depth ≤ 30 then "#D4EE00"
  else if depth ≤ 50 then "#EECC00"
  else if depth ≤ 70 then "#EE9C00"
  else if depth ≤ 90 then "#EA822C"
  else "#EA2C2C"

/-- The `geometry` object of a GeoJSON earthquake feature: the feed's
`coordinates` array `[longitude, latitude, depthKm]`, embedded as a triple.
`coordinates[0]` is `.1`, `coordinates[1]` is `.2.1`, `coordinates[2]` is `.2.2`. -/
structure Geometry where
  coordinates : ℚ × ℚ × ℚ
deriving Repr, DecidableEq

/-- The `properties` object of a feature: the two fields the script reads. -/
structure Properties where
  mag : ℚ
  title : String
deriving Repr, DecidableEq

/-- An element of `earthquakeData`.  Either field may be absent
(`undefined` in JS), embedded as `Option`. -/
structure EarthquakeFeature where
  geometry : Option Geometry
  properties : Option Properties
deriving Repr, DecidableEq

/-- A clustered marker: `L.marker(coordinates).bindPopup(...)` keeps the
position and the popup HTML. -/
structure Marker where
  position : ℚ × ℚ
  popup : String
deriving Repr, DecidableEq

/-- An entry of the `heatPoints` array: a `[lat, lon]` pair. -/
abbrev HeatPoint := ℚ × ℚ

/-- A circle built by `L.circle(coordinates, {fillOpacity, color, fillColor,
radius}).bindPopup(...)`. -/
structure Circle where
  position : ℚ × ℚ
  fillOpacity : ℚ
  color : String
  fillColor : String
  radius : ℚ
  popup : String
deriving Repr, DecidableEq

/-- The popup HTML attached to both the marker and the circle:
the template literal `<h1>${properties.title}</h1>`. -/
def popupHtml (title : String) : String :=
  "<h1>" ++ title ++ "</h1>"

/-- The error raised by the JS runtime when `properties.mag` is read while
`properties` is `undefined`. -/
def typeErrorMessage : String :=
  "TypeError: Cannot read properties of undefined (reading mag)"

/-- One iteration of the `earthquakeData.forEach` loop of `createMap`
(logic.js lines 37-59).  `if (geometry)` skips a feature without geometry;
with geometry present, reading `properties.mag` throws when `properties`
is absent; otherwise the iteration produces one marker, one heat point and
one circle. -/
def processFeature (item : EarthquakeFeature) :
    Except String (Option (Marker × HeatPoint × Circle)) :=
  match item.geometry with
  | none => Except.ok none
  | some geometry =>
    match item.properties with
    | none => Except.error typeErrorMessage
    | some properties =>
      let coordinates : ℚ × ℚ := (geometry.coordinates.2.1, geometry.coordinates.1)
      let magnitude := properties.mag
      let depth := geometry.coordinates.2.2
      let marker : Marker := ⟨coordinates, popupHtml properties.title⟩
      let circle : Circle :=
        ⟨coordinates, 3 / 4, getColorByDepth depth, getColorByDepth depth,
          getMarkerSize magnitude, popupHtml properties.title⟩
      Except.ok (some (marker, coordinates, circle))

/-- The whole feature-transform of `createMap`: the `forEach` loop
accumulating `markerCluster`, `heatPoints` and `circleMarkers` in input
order; a thrown error aborts the loop (and `createMap` with it). -/
def transform : List EarthquakeFeature →
    Except String (List Marker × List HeatPoint × List Circle)
  | [] => Except.ok ([], [], [])
  | item :: rest =>
    match processFeature item with
    | Except.error e => Except.error e
    | Except.ok none => transform rest
    | Except.ok (some (m, h, c)) =>
      match transform rest with
      | Except.error e => Except.error e
      | Except.ok (ms, hs, cs) => Except.ok (m :: ms, h :: hs, c :: cs)

/-- The tectonic-plate GeoJSON document, opaque to the script. -/
structure BoundaryCollection where
  raw : String
deriving Repr, DecidableEq

/-- The layer built by `L.geoJSON(geoJsonData, {style: {color: "firebrick",
weight: 5}})` (logic.js lines 68-70): the document plus the fixed style. -/
structure GeoLayer where
  geoData : BoundaryCollection
  styleColor : String
  styleWeight : ℚ
deriving Repr, DecidableEq

/-- Embeds the construction of `geoLayer` in `createMap`. -/
def mkGeoLayer (geoJsonData : BoundaryCollection) : GeoLayer :=
  ⟨geoJsonData, "firebrick", 5⟩

/-- The JS test `if (geometry)`: whether the feature's geometry is present. -/
def hasGeometry (f : EarthquakeFeature) : Bool :=
  f.geometry.isSome

/-- The heat point a geometry-bearing feature contributes:
`[geometry.coordinates[1], geometry.coordinates[0]]`. -/
def heatOfFeature (f : EarthquakeFeature) : Option HeatPoint :=
  f.geometry.map (fun g => (g.coordinates.2.1, g.coordinates.1))

/-- The marker a feature contributes when both `geometry` and `properties`
are present: position `[coordinates[1], coordinates[0]]` with the title popup. -/
def markerOfFeature (f : EarthquakeFeature) : Option Marker :=
  f.geometry.bind (fun g => f.properties.map (fun p =>
    ⟨(g.coordinates.2.1, g.coordinates.1), popupHtml p.title⟩))

/-- The circle a feature contributes when both `geometry` and `properties`
are present: the loop body's `L.circle` call. -/
def circleOfFeature (f : EarthquakeFeature) : Option Circle :=
  f.geometry.bind (fun g => f.properties.map (fun p =>
    ⟨(g.coordinates.2.1, g.coordinates.1), 3 / 4,
      getColorByDepth g.coordinates.2.2, getColorByDepth g.coordinates.2.2,
      getMarkerSize p.mag, popupHtml p.title⟩))

/-- `s` has `t` as a substring. -/
def ContainsSubstring (s t : String) : Prop :=
  ∃ pre post, s = pre ++ t ++ post

/-- URL of the earthquake feed fetched by `fetchData`. -/
def earthquakeUrl : String :=
  "https://earthquake.usgs.gov/earthquakes/feed/v1.0/summary/all_week.geojson"

/-- URL of the tectonic-plate feed fetched by `fetchData`. -/
def tectonicUrl : String :=
  "https://raw.githubusercontent.com/fraxen/tectonicplates/master/GeoJSON/PB2002_boundaries.json"

/-- Events of the acquisition stage: issuing a request, receiving its
response, and invoking `createMap` (the transform and rendering). -/
inductive NetEvent where
  | request : String → NetEvent
  | response : String → NetEvent
  | renderMap : NetEvent
deriving Repr, DecidableEq

/-- Embeds the promise chain of `fetchData` (logic.js lines 120-130) as the
event trace it generates:
`d3.json(earthquakeUrl).then(r1 => d3.json(tectonicUrl).then(r2 => createMap(...)))`.
The two Booleans say whether each request resolves; the inner fetch is
issued only inside the first `.then` callback, and `createMap` runs only
inside the second. -/
def fetchDataTrace (eqOk tecOk : Bool) : List NetEvent :=
  NetEvent.request earthquakeUrl ::
    (if eqOk then
      NetEvent.response earthquakeUrl :: NetEvent.request tectonicUrl ::
        (if tecOk then [NetEvent.response tectonicUrl, NetEvent.renderMap] else [])
     else [])

/-- The end-to-end scenario feature
`{geometry:{coordinates:[-122.4,37.8,5]}, properties:{mag:4.5, title:"M 4.5 - Bay Area"}}`. -/
def bayAreaFeature : EarthquakeFeature :=
  { geometry := some ⟨(-122.4, 37.8, 5)⟩
    properties := some ⟨4.5, "M 4.5 - Bay Area"⟩ }

/-- A feature whose geometry is present but whose properties object is absent. -/
def geometryOnlyFeature : EarthquakeFeature :=
  { geometry := some ⟨(-122.4, 37.8, 5)⟩
    properties := none }

/-- C1: on a feature list whose geometry-bearing members all carry a
`properties` object (the EarthquakeFeature shape of the data model), the
transform succeeds with no error and produces, for the K geometry-bearing
features, exactly K markers, K heat points and K circles; features lacking
geometry are skipped, and the heat points and circle positions follow the
input order (they equal the in-order `filterMap` of the input). -/
theorem C1_transform_counts_and_order (l : List EarthquakeFeature)
    (h : ∀ f ∈ l, f.geometry.isSome = true → f.properties.isSome = true) :
    transform l = Except.ok (l.filterMap markerOfFeature,
      l.filterMap heatOfFeature, l.filterMap circleOfFeature) ∧
    (l.filterMap markerOfFeature).length = (l.filter hasGeometry).length ∧
    (l.filterMap heatOfFeature).length = (l.filter hasGeometry).length ∧
    (l.filterMap circleOfFeature).length = (l.filter hasGeometry).length ∧
    (l.filterMap markerOfFeature).map Marker.position = l.filterMap heatOfFeature ∧
    (l.filterMap circleOfFeature).map Circle.position = l.filterMap heatOfFeature := by
  induction l with
  | nil => exact ⟨rfl, rfl, rfl, rfl, rfl, rfl⟩
  | cons f rest ih =>
    obtain ⟨h1, h2, h3, h4, h5, h6⟩ := ih (fun g hg => h g (List.mem_cons_of_mem f hg))
    cases hfg : f.geometry with
    | none =>
      simp [transform, processFeature, hfg, List.filterMap_cons, List.filter_cons,
        markerOfFeature, heatOfFeature, circleOfFeature, hasGeometry,
        h1, h2, h3, h4, h5, h6]
    | some geo =>
      have hp : f.properties.isSome = true :=
        h f (List.mem_cons_self f rest) (by simp [hfg])
      obtain ⟨props, hprops⟩ := Option.isSome_iff_exists.mp hp
      simp [transform, processFeature, hfg, hprops, List.filterMap_cons,
        List.filter_cons, markerOfFeature, heatOfFeature, circleOfFeature,
        hasGeometry, h1, h2, h3, h4, h5, h6]

/-- Witness for C1 on a concrete two-feature list: one full feature and
one feature with no geometry; the outputs have length one each. -/
theorem C1_transform_counts_and_order_witness :
    transform [bayAreaFeature, ⟨none, none⟩] =
      Except.ok ([bayAreaFeature, ⟨none, none⟩].filterMap markerOfFeature,
        [bayAreaFeature, ⟨none, none⟩].filterMap heatOfFeature,
        [bayAreaFeature, ⟨none, none⟩].filterMap circleOfFeature) ∧
    ([bayAreaFeature, ⟨none, none⟩].filterMap markerOfFeature).length =
      ([bayAreaFeature, ⟨none, none⟩].filter hasGeometry).length ∧
    ([bayAreaFeature, ⟨none, none⟩].filterMap heatOfFeature).length =
      ([bayAreaFeature, ⟨none, none⟩].filter hasGeometry).length ∧
    ([bayAreaFeature, ⟨none, none⟩].filterMap circleOfFeature).length =
      ([bayAreaFeature, ⟨none, none⟩].filter hasGeometry).length ∧
    ([bayAreaFeature, ⟨none, none⟩].filterMap markerOfFeature).map Marker.position =
      [bayAreaFeature, ⟨none, none⟩].filterMap heatOfFeature ∧
    ([bayAreaFeature, ⟨none, none⟩].filterMap circleOfFeature).map Circle.position =
      [bayAreaFeature, ⟨none, none⟩].filterMap heatOfFeature :=
  C1_transform_counts_and_order [bayAreaFeature, ⟨none, none⟩] (by decide)

/-- C2: `getMarkerSize` returns `m ^ 7` for positive `m` and `1` otherwise
(in particular at `0` and at every negative magnitude); it is a total
function on ℚ. -/
theorem C2_marker_size (m : ℚ) :
    (0 < m → getMarkerSize m = m ^ 7) ∧ (m ≤ 0 → getMarkerSize m = 1) := by
  constructor
  · intro h
    simp [getMarkerSize, h]
  · intro h
    simp [getMarkerSize, not_lt.mpr h]

/-- Witness for C2 at the concrete magnitudes 2, 0 and -3. -/
theorem C2_marker_size_witness :
    getMarkerSize 2 = 2 ^ 7 ∧ getMarkerSize 0 = 1 ∧ getMarkerSize (-3) = 1 :=
  ⟨(C2_marker_size 2).1 (by norm_num), (C2_marker_size 0).2 (by norm_num),
    (C2_marker_size (-3)).2 (by norm_num)⟩

/-- C3: `getColorByDepth` is the six-bucket step function with inclusive
upper bounds, and at the boundary and scenario depths 10, 90, 70 and 70.01
it returns the documented colors. -/
theorem C3_depth_color_buckets (d : ℚ) :
    (d ≤ 10 → getColorByDepth d = "#98EE00") ∧
    (10 < d → d ≤ 30 → getColorByDepth d = "#D4EE00") ∧
    (30 < d → d ≤ 50 → getColorByDepth d = "#EECC00") ∧
    (50 < d → d ≤ 70 → getColorByDepth d = "#EE9C00") ∧
    (70 < d → d ≤ 90 → getColorByDepth d = "#EA822C") ∧
    (90 < d → getColorByDepth d = "#EA2C2C") ∧
    getColorByDepth 10 = "#98EE00" ∧ getColorByDepth 90 = "#EA822C" ∧
    getColorByDepth 70 = "#EE9C00" ∧ getColorByDepth 70.01 = "#EA822C" := by
  unfold getColorByDepth
  refine ⟨?_, ?_, ?_, ?_, ?_, ?_, by norm_num, by norm_num, by norm_num, by norm_num⟩
  · intro h1
    rw [if_pos h1]
  · intro h1 h2
    rw [if_neg (not_le.mpr h1), if_pos h2]
  · intro h1 h2
    rw [if_neg (by linarith), if_neg (not_le.mpr h1), if_pos h2]
  · intro h1 h2
    rw [if_neg (by linarith), if_neg (by linarith), if_neg (not_le.mpr h1), if_pos h2]
  · intro h1 h2
    rw [if_neg (by linarith), if_neg (by linarith), if_neg (by linarith),
      if_neg (not_le.mpr h1), if_pos h2]
  · intro h1
    rw [if_neg (by linarith), if_neg (by linarith), if_neg (by linarith),
      if_neg (by linarith), if_neg (not_le.mpr h1)]

/-- Witness for C3 at the concrete depth 40 (third bucket). -/
theorem C3_depth_color_buckets_witness : getColorByDepth 40 = "#EECC00" :=
  (C3_depth_color_buckets 40).2.2.1 (by norm_num) (by norm_num)

/-- C4 counterexample: at depth -5 the function returns green "#98EE00",
not red "#EA2C2C" — negative depths satisfy the first test `depth <= 10`,
so the claim that they reach the final else bucket is false. -/
theorem C4_negative_depth_counterexample :
    getColorByDepth (-5) = "#98EE00" ∧ getColorByDepth (-5) ≠ "#EA2C2C" := by
  constructor
  · norm_num [getColorByDepth]
  · norm_num [getColorByDepth]
    decide

/-- C4 amended: every negative depth maps to green "#98EE00", the first
bucket (first-match-wins on `depth <= 10`), matching the legend's
"-10 to 10" green row. -/
theorem C4_negative_depth_green (d : ℚ) (h : d < 0) :
    getColorByDepth d = "#98EE00" := by
  unfold getColorByDepth
  rw [if_pos (by linarith)]

/-- Witness for the amended C4 at the concrete depth -5. -/
theorem C4_negative_depth_green_witness : getColorByDepth (-5) = "#98EE00" :=
  C4_negative_depth_green (-5) (by norm_num)

/-- C7: the boundary collection is passed through to the layer unmodified,
styled with color "firebrick" and weight 5. -/
theorem C7_boundary_passthrough (b : BoundaryCollection) :
    (mkGeoLayer b).geoData = b ∧ (mkGeoLayer b).styleColor = "firebrick" ∧
      (mkGeoLayer b).styleWeight = 5 :=
  ⟨rfl, rfl, rfl⟩

/-- C8: on the empty feature list the transform yields empty marker,
heat-point and circle collections and no error. -/
theorem C8_empty_input : transform [] = Except.ok ([], [], []) := rfl

/-- C10: a feature with geometry present but properties absent makes the
transform fail with an error (the JS TypeError on reading `properties.mag`)
rather than skipping the feature or producing outputs. -/
theorem C10_missing_properties_error :
    hasGeometry geometryOnlyFeature = true ∧
    geometryOnlyFeature.properties = none ∧
    transform [geometryOnlyFeature] = Except.error typeErrorMessage :=
  ⟨rfl, rfl, rfl⟩

/-- C5: on the single Bay Area feature the transform produces one marker at
[37.8, -122.4] (lat/lon swapped from the GeoJSON order) whose popup contains
the title, one heat point, and one circle colored "#98EE00" (depth 5 ≤ 10)
with radius 4.5 ^ 7. -/
theorem C5_bay_area_scenario :
    ∃ m h c,
      transform [bayAreaFeature] = Except.ok ([m], [h], [c]) ∧
      m.position = (37.8, -122.4) ∧
      ContainsSubstring m.popup "M 4.5 - Bay Area" ∧
      c.color = "#98EE00" ∧ c.fillColor = "#98EE00" ∧
      c.radius = (4.5 : ℚ) ^ 7 := by
  refine ⟨⟨(37.8, -122.4), popupHtml "M 4.5 - Bay Area"⟩, (37.8, -122.4),
    ⟨(37.8, -122.4), 3 / 4, "#98EE00", "#98EE00", (4.5 : ℚ) ^ 7,
      popupHtml "M 4.5 - Bay Area"⟩,
    ?_, rfl, ⟨"<h1>", "</h1>", rfl⟩, rfl, rfl, rfl⟩
  have hc : getColorByDepth 5 = "#98EE00" := by norm_num [getColorByDepth]
  have hr : getMarkerSize 4.5 = (4.5 : ℚ) ^ 7 := by norm_num [getMarkerSize]
  simp [transform, processFeature, bayAreaFeature, hc, hr]

/-- C6: for every feature with geometry and properties present, the popup
attached to the circle is identical to the popup attached to the marker,
and both contain the feature's title. -/
theorem C6_popup_match (g : Geometry) (p : Properties) :
    ∃ m h c,
      processFeature ⟨some g, some p⟩ = Except.ok (some (m, h, c)) ∧
      c.popup = m.popup ∧
      ContainsSubstring m.popup p.title ∧
      ContainsSubstring c.popup p.title :=
  ⟨⟨(g.coordinates.2.1, g.coordinates.1), popupHtml p.title⟩,
    (g.coordinates.2.1, g.coordinates.1),
    ⟨(g.coordinates.2.1, g.coordinates.1), 3 / 4,
      getColorByDepth g.coordinates.2.2, getColorByDepth g.coordinates.2.2,
      getMarkerSize p.mag, popupHtml p.title⟩,
    rfl, rfl, ⟨"<h1>", "</h1>", rfl⟩, ⟨"<h1>", "</h1>", rfl⟩⟩

/-- C9: in every run of the fetch chain, the tectonic request appears only
after the earthquake response (and only if it arrived), and `createMap`
(the transform and rendering) appears only when both responses are in the
trace; in the complete run the earthquake response precedes the tectonic
request and both responses precede the render event. -/
theorem C9_sequential_acquisition :
    (∀ eqOk tecOk : Bool,
      (NetEvent.renderMap ∈ fetchDataTrace eqOk tecOk ↔ eqOk = true ∧ tecOk = true) ∧
      (NetEvent.request tectonicUrl ∈ fetchDataTrace eqOk tecOk ↔ eqOk = true) ∧
      (NetEvent.response earthquakeUrl ∈ fetchDataTrace eqOk tecOk ↔ eqOk = true) ∧
      (NetEvent.response tectonicUrl ∈ fetchDataTrace eqOk tecOk ↔
        eqOk = true ∧ tecOk = true)) ∧
    (fetchDataTrace true true).indexOf (NetEvent.response earthquakeUrl) <
      (fetchDataTrace true true).indexOf (NetEvent.request tectonicUrl) ∧
    (fetchDataTrace true true).indexOf (NetEvent.response tectonicUrl) <
      (fetchDataTrace true true).indexOf NetEvent.renderMap ∧
    (fetchDataTrace true true).indexOf (NetEvent.response earthquakeUrl) <
      (fetchDataTrace true true).indexOf NetEvent.renderMap := by
  decide

end EarthquakeMap
